import Mathlib

/-!
Shallow embedding of the `ai-content-gen` repository's four Python source
files, and proofs of the specification's claims about them.

The repository is integration glue around two external libraries (pypdf and
rdkit).  External library calls are modelled as oracle functions bundled in
structures (`BasicLib`, `ExtLib`, `ChemLib`); each oracle returns
`Except Err _` so that any failure pattern of the library can be
instantiated.  The filesystem is modelled explicitly (`FS`) so that
directory creation and file writing, and their failure modes, are visible
in the state.

Embedded source files:
  * `src/scripts/compress_pdf.py`        → namespace `Scripts`
  * `src/python/rdkit_service/pdf_compress.py` → namespace `RdkitService`
  * `src/python/rdkit_service/main.py`   → namespace `RdkitService`
  * `src/server/chem/render.py`          → namespace `Render`
-/

/-- Python exceptions, as far as the embedded code distinguishes them.
`attrError` models `AttributeError`, which `getattr(obj, name, default)`
converts into the default value while every other exception propagates. -/
inductive Err where
  | valueError (msg : String)
  | ioError (msg : String)
  | libError (msg : String)
  | attrError
deriving Repr, DecidableEq

/-- `str(exc)`: the message Python prints for the exception. -/
def Err.msg : Err → String
  | .valueError m => m
  | .ioError m => m
  | .libError m => m
  | .attrError => "attribute error"

/-- An embedded raster image inside a PDF page: abstract payload plus the
quality at which it was last re-encoded (none = original encoding). -/
structure Img where
  data : Nat
  quality : Option Int
deriving Repr, DecidableEq

/-- A PDF page: `content` is the decoded (post-decompression) sequence of
drawn operations, `streamLen` the size of the encoded content stream, and
`images` the embedded raster images. -/
structure Page where
  content : List Nat
  streamLen : Nat
  images : List Img
deriving Repr, DecidableEq

/-- An in-memory PDF document: an ordered page sequence plus abstract
document-level structure (outlines, metadata, ...) collapsed into `meta`. -/
structure Doc where
  pages : List Page
  meta : Nat
deriving Repr, DecidableEq

/-- Splits a path string on `/` into components (structural recursion so
that concrete witnesses reduce in the kernel). -/
def splitPath : List Char → List Char → List String
  | [], acc => [⟨acc.reverse⟩]
  | c :: rest, acc =>
    if c = '/' then ⟨acc.reverse⟩ :: splitPath rest []
    else splitPath rest (c :: acc)

/-- The components of a path string, as `pathlib` / the OS resolve it. -/
def pathComponents (s : String) : List String := splitPath s.data []

/-- `Path(s).parent`, as components. -/
def parentComponents (s : String) : List String := (pathComponents s).dropLast

/-- The nonempty prefixes of a component list: the chain of directories
`mkdir(parents=True)` must ensure exist. -/
def initsNE : List String → List (List String)
  | [] => []
  | a :: rest => [a] :: (initsNE rest).map (a :: ·)

/-- Filesystem state: existing directories and files, plus the directories
and paths on which the OS denies creation/writing (modelling permission
errors, so that fatal write-side failures are expressible). -/
structure FS where
  dirs : List (List String)
  files : List (List String × Doc)
  deniedDirs : List (List String)
  deniedWrite : List (List String)
deriving Repr, DecidableEq

/-- A directory exists if it is the working directory (empty component
list) or has been recorded. -/
def FS.dirExists (fs : FS) (c : List String) : Prop :=
  c = [] ∨ c ∈ fs.dirs

instance (fs : FS) (c : List String) : Decidable (fs.dirExists c) := by
  unfold FS.dirExists
  infer_instance

/-- The OS lets this process create the whole chain of directories
leading to `c`. -/
def FS.mkdirAllowed (fs : FS) (c : List String) : Prop :=
  ∀ p ∈ initsNE c, p ∉ fs.deniedDirs

instance (fs : FS) (c : List String) : Decidable (fs.mkdirAllowed c) := by
  unfold FS.mkdirAllowed
  infer_instance

/-- `Path(c).mkdir(parents=True, exist_ok=True)`: creates the whole chain
of missing directories; raises only if the OS denies one of them. -/
def FS.mkdirParents (fs : FS) (c : List String) : Except Err FS :=
  if fs.mkdirAllowed c then
    .ok { fs with dirs := fs.dirs ++ initsNE c }
  else
    .error (.ioError "mkdir: permission denied")

/-- Association-list lookup for the file table. -/
def lookupFile : List (List String × Doc) → List String → Option Doc
  | [], _ => none
  | (k, d) :: rest, c => if k = c then some d else lookupFile rest c

/-- The document stored at path `p`, if any. -/
def FS.lookup (fs : FS) (p : String) : Option Doc :=
  lookupFile fs.files (pathComponents p)

/-- `open(p, "wb")` followed by `writer.write(f)`: fails if the parent
directory does not exist or the OS denies the write; otherwise replaces
whatever was at `p`. -/
def FS.writeFile (fs : FS) (p : String) (d : Doc) : Except Err FS :=
  let c := pathComponents p
  if fs.dirExists c.dropLast then
    if c ∈ fs.deniedWrite then
      .error (.ioError "write: permission denied")
    else
      .ok { fs with files := (c, d) :: fs.files.filter (fun x => x.1 ≠ c) }
  else
    .error (.ioError "No such file or directory")

/-- Numeric value of a digit string. -/
def digitsVal : List Char → Nat → Nat
  | [], acc => acc
  | c :: rest, acc => digitsVal rest (acc * 10 + (c.toNat - 48))

/-- Python's `int(str)` builtin: strips surrounding whitespace, accepts an
optional sign followed by a nonempty digit string, raises `ValueError`
otherwise. -/
def pythonInt (s : String) : Except Err Int :=
  let t := ((s.data.dropWhile Char.isWhitespace).reverse.dropWhile
    Char.isWhitespace).reverse
  let (sign, digits) : Int × List Char :=
    match t with
    | '-' :: rest => (-1, rest)
    | '+' :: rest => (1, rest)
    | _ => (1, t)
  if digits ≠ [] ∧ digits.all Char.isDigit then
    .ok (sign * (digitsVal digits 0 : Nat))
  else
    .error (.valueError ("invalid literal for int() with base 10: " ++ s))

/-- List-prefix test by structural recursion. -/
def isPre : List Char → List Char → Bool
  | [], _ => true
  | _ :: _, [] => false
  | a :: as, b :: bs => a = b && isPre as bs

/-- Python's `str.lstrip()` with no argument. -/
def lstrip (s : String) : String := ⟨s.data.dropWhile Char.isWhitespace⟩

/-! ## `src/scripts/compress_pdf.py` (basic pipeline) -/

/-- The pypdf operations the basic pipeline calls, as oracles: `PdfReader`
(full parse into a page sequence) and `writer.compress_content_streams()`
(whole-document content-stream compression).  Either may fail. -/
structure BasicLib where
  readDoc : String → Except Err (List Page)
  compressAll : List Page → Except Err (List Page)

namespace Scripts

/-- The `for page in reader.pages: writer.add_page(page)` loop: appends
each source page to the writer's page list. -/
def addPagesLoop : List Page → List Page → List Page
  | w, [] => w
  | w, p :: rest => addPagesLoop (w ++ [p]) rest

/-- `compress_pdf` of `src/scripts/compress_pdf.py`: parse the source,
copy every page into a fresh writer, attempt one whole-document
content-stream compression (swallowing any exception), then open the
destination and write.  A fresh `PdfWriter()` carries no cloned document
structure, so the written document has `meta = 0`. -/
def compress_pdf (lib : BasicLib) (fs : FS) (input_path output_path : String) :
    Except Err FS :=
  match lib.readDoc input_path with
  | .error e => .error e
  | .ok pages =>
    let writerPages := addPagesLoop [] pages
    let writerPages :=
      match lib.compressAll writerPages with
      | .ok ps => ps
      | .error _ => writerPages
    fs.writeFile output_path { pages := writerPages, meta := 0 }

/-- `main` of `src/scripts/compress_pdf.py`.  Returns the process exit
code, the final filesystem, and the lines printed to stderr; a fatal
pipeline exception propagates as `.error`. -/
def main (lib : BasicLib) (fs : FS) (argv : List String) :
    Except Err (Nat × FS × List String) :=
  if argv.length ≠ 3 then
    .ok (1, fs, ["Usage: compress_pdf.py <input.pdf> <output.pdf>"])
  else
    match compress_pdf lib fs (argv.getD 1 "") (argv.getD 2 "") with
    | .error e => .error e
    | .ok fs2 => .ok (0, fs2, [])

end Scripts

/-! ## `src/python/rdkit_service/pdf_compress.py` (extended pipeline) -/

/-- The pypdf operations the extended pipeline calls, as oracles.
`clone` is `PdfWriter(clone_from=src)`; `compressPage` is
`page.compress_content_streams(level=9)` on the page at a position;
`enumImages` is the access to `page.images` performed by
`getattr(page, "images", [])` (an `attrError` is the case where `getattr`
returns the default `[]`); `replaceImg` is
`img.replace(img.image, quality=q)` on the image at a position;
`dedup` is `writer.compress_identical_objects(...)`. -/
structure ExtLib where
  clone : String → Except Err Doc
  compressPage : Nat → Page → Except Err Page
  enumImages : Nat → Page → Except Err (List Img)
  replaceImg : Nat → Nat → Img → Int → Except Err Img
  dedup : Doc → Except Err Doc

namespace RdkitService

/-- One page's best-effort lossless compression attempt: the `try/except
pass` around `page.compress_content_streams(level=9)`. -/
def tryCompress (lib : ExtLib) (k : Nat) (p : Page) : Page :=
  match lib.compressPage k p with
  | .ok p2 => p2
  | .error _ => p

/-- The `if lossless:` loop: every page's compression attempt is wrapped
in its own `try/except pass`, so one failure never affects another page. -/
def losslessStep (lib : ExtLib) : Nat → List Page → List Page
  | _, [] => []
  | k, p :: rest => tryCompress lib k p :: losslessStep lib (k + 1) rest

/-- The inner `for img in ...` loop: each image's
`img.replace(img.image, quality=q)` sits in its own `try/except pass`. -/
def replaceLoop (lib : ExtLib) (k : Nat) (q : Int) : Nat → List Img → List Img
  | _, [] => []
  | i, im :: rest =>
    (match lib.replaceImg k i im q with
     | .ok im2 => im2
     | .error _ => im) :: replaceLoop lib k q (i + 1) rest

/-- The image-quality step's page loop.  `getattr(page, "images", [])`
turns an `AttributeError` into the empty list (the page is skipped and the
loop continues); any other exception escapes to the step's outer
`try/except pass`, ending the step with the remaining pages untouched. -/
def imageLoop (lib : ExtLib) (q : Int) : Nat → List Page → List Page
  | _, [] => []
  | k, p :: rest =>
    match lib.enumImages k p with
    | .ok imgs =>
      { p with images := replaceLoop lib k q 0 imgs } :: imageLoop lib q (k + 1) rest
    | .error .attrError => p :: imageLoop lib q (k + 1) rest
    | .error _ => p :: rest

/-- The whole-document de-duplication attempt with its `try/except pass`. -/
def tryDedup (lib : ExtLib) (d : Doc) : Doc :=
  match lib.dedup d with
  | .ok d2 => d2
  | .error _ => d

/-- `compress_pdf` of `src/python/rdkit_service/pdf_compress.py`:
structural clone, optional per-page lossless compression, optional
per-image re-encoding, best-effort de-duplication, then
`dst.parent.mkdir(parents=True, exist_ok=True)` and the write.  Only the
clone, the mkdir and the write can raise. -/
def compress_pdf (lib : ExtLib) (fs : FS) (input_path output_path : String)
    (lossless : Bool) (image_quality : Option Int) : Except Err FS :=
  match lib.clone input_path with
  | .error e => .error e
  | .ok writer =>
    let pages1 :=
      if lossless then losslessStep lib 0 writer.pages else writer.pages
    let pages2 :=
      match image_quality with
      | some q => imageLoop lib q 0 pages1
      | none => pages1
    let doc2 := tryDedup lib { writer with pages := pages2 }
    match fs.mkdirParents (parentComponents output_path) with
    | .error e => .error e
    | .ok fs1 => fs1.writeFile output_path doc2

/-- `main` of `src/python/rdkit_service/pdf_compress.py`.  Returns the
exit code, the final filesystem and the lines printed to stdout; an
uncaught exception (e.g. `int(sys.argv[3])` on a bad literal, or a fatal
pipeline error) propagates as `.error`. -/
def main (lib : ExtLib) (fs : FS) (argv : List String) :
    Except Err (Nat × FS × List String) :=
  if argv.length < 3 then
    .ok (2, fs,
      ["Usage: python pdf_compress.py <input.pdf> <output.pdf> [image_quality]"])
  else
    match (if argv.length > 3 then (pythonInt (argv.getD 3 "")).map some
           else .ok none) with
    | .error e => .error e
    | .ok quality =>
      match compress_pdf lib fs (argv.getD 1 "") (argv.getD 2 "") true quality with
      | .error e => .error e
      | .ok fs2 => .ok (0, fs2, [])

end RdkitService

/-! ## `src/server/chem/render.py` and `src/python/rdkit_service/main.py` -/

/-- The rdkit operations the rendering code calls, as oracles:
`Chem.MolFromSmiles` (returns `None` on an unparseable SMILES) and the
`MolDraw2DSVG(w, h)` / `DrawMolecule` / `FinishDrawing` /
`GetDrawingText` sequence, collapsed into one drawing call that may raise. -/
structure ChemLib where
  molFromSmiles : String → Option Nat
  render : Nat → Int → Int → Except Err String

namespace Render

/-- `smiles_to_svg` of `src/server/chem/render.py`: raises
`ValueError("Invalid SMILES")` when the molecule fails to parse, otherwise
draws it at the given size. -/
def smiles_to_svg (lib : ChemLib) (smiles : String)
    (width : Int := 400) (height : Int := 300) : Except Err String :=
  match lib.molFromSmiles smiles with
  | none => .error (.valueError "Invalid SMILES")
  | some mol => lib.render mol width height

/-- The XML declaration `main` prepends when missing. -/
def xmlHeader : String := "<?xml version=\"1.0\" encoding=\"UTF-8\"?>\n"

/-- `main` of `src/server/chem/render.py`.  Returns the exit code, the
lines printed to stdout and the lines printed to stderr; `int()` failures
on the width/height arguments happen outside the `try` block and propagate
as `.error`. -/
def main (lib : ChemLib) (argv : List String) :
    Except Err (Nat × List String × List String) :=
  if argv.length < 2 then
    .ok (2, [], ["Usage: python render.py <SMILES> [WIDTH] [HEIGHT]"])
  else
    let smiles := argv.getD 1 ""
    match (if argv.length > 2 then pythonInt (argv.getD 2 "") else .ok 400) with
    | .error e => .error e
    | .ok w =>
      match (if argv.length > 3 then pythonInt (argv.getD 3 "") else .ok 300) with
      | .error e => .error e
      | .ok h =>
        match smiles_to_svg lib smiles w h with
        | .ok svg0 =>
          let svg := if ¬ isPre "<?xml".data (lstrip svg0).data
                     then xmlHeader ++ svg0 else svg0
          .ok (0, [svg], [])
        | .error e => .ok (1, [], ["ERROR: " ++ e.msg])

end Render

/-- An HTTP response of the FastAPI service: either a successful
`Response(content, media_type)` or the JSON error body an
`HTTPException(status_code, detail)` produces. -/
inductive HttpResp where
  | resp (status : Nat) (mediaType : String) (body : String)
  | errJson (status : Nat) (detail : String)
deriving Repr, DecidableEq

/-- The status code of a response. -/
def HttpResp.status : HttpResp → Nat
  | .resp s _ _ => s
  | .errJson s _ => s

namespace RdkitService

/-- The body of the `try` block in `svg` of
`src/python/rdkit_service/main.py`: parse the SMILES (raising
`ValueError("Invalid SMILES")` on `None`) and draw it at 400x300. -/
def svgTryBody (lib : ChemLib) (smiles : String) : Except Err String :=
  match lib.molFromSmiles smiles with
  | none => .error (.valueError "Invalid SMILES")
  | some mol => lib.render mol 400 300

/-- `svg` of `src/python/rdkit_service/main.py`, the handler of
`GET /svg`: any exception from the `try` block becomes
`HTTPException(status_code=400, detail=str(e))`. -/
def svg (lib : ChemLib) (smiles : String) : HttpResp :=
  match svgTryBody lib smiles with
  | .ok s => .resp 200 "image/svg+xml" s
  | .error e => .errJson 400 e.msg

end RdkitService

/-! ## Helper lemmas -/

theorem addPagesLoop_eq : ∀ (ps w : List Page), Scripts.addPagesLoop w ps = w ++ ps
  | [], w => by simp [Scripts.addPagesLoop]
  | p :: rest, w => by
    rw [Scripts.addPagesLoop, addPagesLoop_eq rest (w ++ [p])]
    simp

theorem losslessStep_length (lib : ExtLib) :
    ∀ (ps : List Page) (k : Nat),
      (RdkitService.losslessStep lib k ps).length = ps.length
  | [], _ => rfl
  | _ :: rest, k => by
    rw [RdkitService.losslessStep]
    simp [losslessStep_length lib rest (k + 1)]

theorem losslessStep_getD (lib : ExtLib) :
    ∀ (ps : List Page) (k j : Nat) (dp : Page), j < ps.length →
      (RdkitService.losslessStep lib k ps).getD j dp
        = RdkitService.tryCompress lib (k + j) (ps.getD j dp)
  | [], _, j, _, h => absurd h (by simp)
  | _ :: _, _, 0, _, _ => by simp [RdkitService.losslessStep]
  | p :: rest, k, j + 1, dp, h => by
    rw [RdkitService.losslessStep]
    simp only [List.getD_cons_succ]
    rw [losslessStep_getD lib rest (k + 1) j dp (by simpa using Nat.lt_of_succ_lt_succ h)]
    have hkj : k + 1 + j = k + (j + 1) := by omega
    rw [hkj]

theorem mem_initsNE_self : ∀ (c : List String), c ≠ [] → c ∈ initsNE c
  | [], h => absurd rfl h
  | a :: rest, _ => by
    rw [initsNE]
    rcases Decidable.em (rest = []) with h2 | h2
    · subst h2
      simp [initsNE]
    · exact List.mem_cons_of_mem _ (List.mem_map_of_mem (a :: ·) (mem_initsNE_self rest h2))

theorem mkdirParents_ok (fs : FS) (c : List String) (h : fs.mkdirAllowed c) :
    fs.mkdirParents c = .ok { fs with dirs := fs.dirs ++ initsNE c } := by
  rw [FS.mkdirParents, if_pos h]

theorem mkdirParents_denied (fs : FS) (c : List String) (h : ¬ fs.mkdirAllowed c) :
    fs.mkdirParents c = .error (.ioError "mkdir: permission denied") := by
  rw [FS.mkdirParents, if_neg h]

theorem dirExists_after_mkdir (fs : FS) (c : List String) :
    FS.dirExists { fs with dirs := fs.dirs ++ initsNE c } c := by
  unfold FS.dirExists
  rcases Decidable.em (c = []) with h | h
  · exact Or.inl h
  · exact Or.inr (List.mem_append_right _ (mem_initsNE_self c h))

theorem writeFile_ok (fs : FS) (p : String) (d : Doc)
    (h1 : fs.dirExists (pathComponents p).dropLast)
    (h2 : pathComponents p ∉ fs.deniedWrite) :
    fs.writeFile p d = .ok { fs with files :=
      (pathComponents p, d) :: fs.files.filter (fun x => x.1 ≠ pathComponents p) } := by
  rw [FS.writeFile]
  simp only [if_pos h1, if_neg h2]

theorem writeFile_noParent (fs : FS) (p : String) (d : Doc)
    (h1 : ¬ fs.dirExists (pathComponents p).dropLast) :
    fs.writeFile p d = .error (.ioError "No such file or directory") := by
  rw [FS.writeFile]
  simp only [if_neg h1]

theorem writeFile_denied (fs : FS) (p : String) (d : Doc)
    (h1 : fs.dirExists (pathComponents p).dropLast)
    (h2 : pathComponents p ∈ fs.deniedWrite) :
    fs.writeFile p d = .error (.ioError "write: permission denied") := by
  rw [FS.writeFile]
  simp only [if_pos h1, if_pos h2]

theorem writeFile_dirs (fs fs2 : FS) (p : String) (d : Doc)
    (h : fs.writeFile p d = .ok fs2) : fs2.dirs = fs.dirs := by
  rw [FS.writeFile] at h
  split at h
  · split at h
    · exact absurd h (by simp)
    · rw [Except.ok.injEq] at h
      rw [← h]
  · exact absurd h (by simp)

theorem lookup_after_write (fs : FS) (p : String) (d : Doc) :
    FS.lookup { fs with files :=
        (pathComponents p, d) :: fs.files.filter (fun x => x.1 ≠ pathComponents p) }
      p = some d := by
  unfold FS.lookup lookupFile
  simp

theorem writeFile_ok_inv (fs fs2 : FS) (p : String) (d : Doc)
    (h : fs.writeFile p d = .ok fs2) : fs2.lookup p = some d := by
  rw [FS.writeFile] at h
  split at h
  · split at h
    · exact absurd h (by simp)
    · rw [Except.ok.injEq] at h
      rw [← h]
      exact lookup_after_write fs p d
  · exact absurd h (by simp)

theorem tryDedup_pages (lib : ExtLib) (dd : Doc)
    (hd : ∀ d2, lib.dedup dd = .ok d2 → d2.pages = dd.pages) :
    (RdkitService.tryDedup lib dd).pages = dd.pages := by
  cases h : lib.dedup dd with
  | ok d2 => simp [RdkitService.tryDedup, h, hd d2 h]
  | error e => simp [RdkitService.tryDedup, h]

theorem ext_compress_pdf_run (lib : ExtLib) (fs : FS) (inp out : String)
    (loss : Bool) (q : Option Int) (d : Doc)
    (hc : lib.clone inp = .ok d)
    (hm : fs.mkdirAllowed (parentComponents out))
    (hw : pathComponents out ∉ fs.deniedWrite) :
    ∃ fs2, RdkitService.compress_pdf lib fs inp out loss q = .ok fs2 ∧
      fs2.lookup out = some (RdkitService.tryDedup lib
        { d with pages :=
            match q with
            | some qq => RdkitService.imageLoop lib qq 0
                (if loss then RdkitService.losslessStep lib 0 d.pages else d.pages)
            | none => if loss then RdkitService.losslessStep lib 0 d.pages
                      else d.pages }) ∧
      ∀ c ∈ initsNE (parentComponents out), c ∈ fs2.dirs := by
  simp only [RdkitService.compress_pdf, hc]
  rw [mkdirParents_ok fs _ hm]
  set fs1 : FS := { fs with dirs := fs.dirs ++ initsNE (parentComponents out) }
  set doc2 := RdkitService.tryDedup lib
    { d with pages :=
        match q with
        | some qq => RdkitService.imageLoop lib qq 0
            (if loss then RdkitService.losslessStep lib 0 d.pages else d.pages)
        | none => if loss then RdkitService.losslessStep lib 0 d.pages
                  else d.pages }
  have hpar : fs1.dirExists (pathComponents out).dropLast :=
    dirExists_after_mkdir fs (parentComponents out)
  have hw1 : pathComponents out ∉ fs1.deniedWrite := hw
  refine ⟨{ fs1 with files := (pathComponents out, doc2) ::
      fs1.files.filter (fun x => x.1 ≠ pathComponents out) }, ?_, ?_, ?_⟩
  · show fs1.writeFile out doc2 = _
    exact writeFile_ok fs1 out doc2 hpar hw1
  · exact lookup_after_write fs1 out doc2
  · intro c hcmem
    exact List.mem_append_right _ hcmem

theorem basic_compress_pdf_run (lib : BasicLib) (fs : FS) (inp out : String)
    (pages : List Page)
    (hr : lib.readDoc inp = .ok pages)
    (hd : fs.dirExists (parentComponents out))
    (hw : pathComponents out ∉ fs.deniedWrite) :
    ∃ fs2, Scripts.compress_pdf lib fs inp out = .ok fs2 := by
  simp only [Scripts.compress_pdf, hr, addPagesLoop_eq, List.nil_append]
  exact ⟨_, writeFile_ok fs out _ hd hw⟩

/-- Claim C3: in the basic pipeline (`compress_pdf` in
`src/scripts/compress_pdf.py`), failure to parse the source document or
failure to write the destination file propagates to the caller, while an
exception raised by the single whole-document content-stream compression
call is swallowed and the pipeline proceeds to write the uncompressed
output. -/
theorem basic_error_policy (lib : BasicLib) (fs : FS) (inp out : String) :
    (∀ e, lib.readDoc inp = .error e →
      Scripts.compress_pdf lib fs inp out = .error e)
    ∧ (∀ pages, lib.readDoc inp = .ok pages →
        ¬ fs.dirExists (parentComponents out) →
        Scripts.compress_pdf lib fs inp out =
          .error (.ioError "No such file or directory"))
    ∧ (∀ pages e, lib.readDoc inp = .ok pages →
        lib.compressAll pages = .error e →
        fs.dirExists (parentComponents out) →
        pathComponents out ∉ fs.deniedWrite →
        ∃ fs2, Scripts.compress_pdf lib fs inp out = .ok fs2 ∧
          fs2.lookup out = some { pages := pages, meta := 0 }) := by
  refine ⟨?_, ?_, ?_⟩
  · intro e he
    simp only [Scripts.compress_pdf, he]
  · intro pages hr hd
    simp only [Scripts.compress_pdf, hr]
    rw [writeFile_noParent fs out _ hd]
  · intro pages e hr hcomp hd hw
    simp only [Scripts.compress_pdf, hr, addPagesLoop_eq, List.nil_append, hcomp]
    rw [writeFile_ok fs out _ hd hw]
    exact ⟨_, rfl, lookup_after_write fs out _⟩

/-- Claim C2: for every valid source PDF with N pages, the basic pipeline
produces an output document with exactly N pages, in the source's
original order, each page's decoded (post-decompression) content equal to
the corresponding source page's — given the library contract that a
successful content-stream compression preserves page count and decoded
content. -/
theorem basic_page_preservation (lib : BasicLib) (fs : FS) (inp out : String)
    (pages : List Page)
    (hr : lib.readDoc inp = .ok pages)
    (hcontract : ∀ ps2, lib.compressAll pages = .ok ps2 →
      ps2.length = pages.length ∧
      ∀ (j : Nat) (dp : Page), j < pages.length →
        (ps2.getD j dp).content = (pages.getD j dp).content) :
    ∀ fs2, Scripts.compress_pdf lib fs inp out = .ok fs2 →
      ∃ doc, fs2.lookup out = some doc ∧
        doc.pages.length = pages.length ∧
        ∀ (j : Nat) (dp : Page), j < pages.length →
          (doc.pages.getD j dp).content = (pages.getD j dp).content := by
  intro fs2 hrun
  simp only [Scripts.compress_pdf, hr, addPagesLoop_eq, List.nil_append] at hrun
  cases hca : lib.compressAll pages with
  | ok ps2 =>
    rw [hca] at hrun
    refine ⟨{ pages := ps2, meta := 0 }, writeFile_ok_inv _ _ _ _ hrun, ?_, ?_⟩
    · exact (hcontract ps2 hca).1
    · exact fun j dp hj => (hcontract ps2 hca).2 j dp hj
  | error e =>
    rw [hca] at hrun
    exact ⟨{ pages := pages, meta := 0 }, writeFile_ok_inv _ _ _ _ hrun, rfl,
      fun j dp hj => rfl⟩

/-- Claim C1: in the extended pipeline (`compress_pdf` in
`src/python/rdkit_service/pdf_compress.py`) every compression-related
sub-step is individually fault-tolerant.  The conjuncts state: (1) a
clone failure propagates; (2) a failure to create the destination
directory propagates; (3) a failure to write the destination propagates;
(4) whenever clone, mkdir and write succeed, the pipeline succeeds for
EVERY oracle — i.e. under any pattern of per-page compression, image
enumeration, per-image re-encode and de-duplication failures; (5) with
the lossless flag on and no image quality, the written document's page at
each position is exactly the outcome of that page's own compression
attempt (compressed when its attempt succeeded, original otherwise), so
one page's failure leaves all other pages compressed. -/
theorem ext_error_policy (lib : ExtLib) (fs : FS) (inp out : String)
    (loss : Bool) (q : Option Int) :
    (∀ e, lib.clone inp = .error e →
      RdkitService.compress_pdf lib fs inp out loss q = .error e)
    ∧ (∀ d, lib.clone inp = .ok d → ¬ fs.mkdirAllowed (parentComponents out) →
        RdkitService.compress_pdf lib fs inp out loss q =
          .error (.ioError "mkdir: permission denied"))
    ∧ (∀ d, lib.clone inp = .ok d → fs.mkdirAllowed (parentComponents out) →
        pathComponents out ∈ fs.deniedWrite →
        RdkitService.compress_pdf lib fs inp out loss q =
          .error (.ioError "write: permission denied"))
    ∧ (∀ d, lib.clone inp = .ok d → fs.mkdirAllowed (parentComponents out) →
        pathComponents out ∉ fs.deniedWrite →
        ∃ fs2, RdkitService.compress_pdf lib fs inp out loss q = .ok fs2)
    ∧ (∀ d, lib.clone inp = .ok d → fs.mkdirAllowed (parentComponents out) →
        pathComponents out ∉ fs.deniedWrite →
        (∀ dd d2, lib.dedup dd = .ok d2 → d2.pages = dd.pages) →
        ∃ fs2 doc, RdkitService.compress_pdf lib fs inp out true none = .ok fs2 ∧
          fs2.lookup out = some doc ∧
          doc.pages.length = d.pages.length ∧
          ∀ (j : Nat) (dp : Page), j < d.pages.length →
            doc.pages.getD j dp = RdkitService.tryCompress lib j (d.pages.getD j dp)) := by
  refine ⟨?_, ?_, ?_, ?_, ?_⟩
  · intro e he
    simp only [RdkitService.compress_pdf, he]
  · intro d hcl hm
    simp only [RdkitService.compress_pdf, hcl]
    rw [mkdirParents_denied fs _ hm]
  · intro d hcl hm hwmem
    simp only [RdkitService.compress_pdf, hcl]
    rw [mkdirParents_ok fs _ hm]
    show FS.writeFile _ out _ = _
    exact writeFile_denied _ out _ (dirExists_after_mkdir fs (parentComponents out)) hwmem
  · intro d hcl hm hw
    obtain ⟨fs2, h1, _, _⟩ := ext_compress_pdf_run lib fs inp out loss q d hcl hm hw
    exact ⟨fs2, h1⟩
  · intro d hcl hm hw hded
    obtain ⟨fs2, h1, h2, _⟩ := ext_compress_pdf_run lib fs inp out true none d hcl hm hw
    refine ⟨fs2, _, h1, h2, ?_, ?_⟩
    · rw [tryDedup_pages lib _ (fun d2 hh => hded _ d2 hh)]
      exact losslessStep_length lib d.pages 0
    · intro j dp hj
      rw [tryDedup_pages lib _ (fun d2 hh => hded _ d2 hh)]
      show (RdkitService.losslessStep lib 0 d.pages).getD j dp = _
      rw [losslessStep_getD lib d.pages 0 j dp hj, Nat.zero_add]

/-- Claim C4: with the lossless flag false, no image-quality value, and
the de-duplication call unsupported (raising), the extended pipeline
writes the structural clone of the source unchanged: a pass-through
no-op. -/
theorem ext_noop_passthrough (lib : ExtLib) (fs : FS) (inp out : String)
    (d : Doc) (e : Err)
    (hcl : lib.clone inp = .ok d)
    (hded : lib.dedup d = .error e)
    (hm : fs.mkdirAllowed (parentComponents out))
    (hw : pathComponents out ∉ fs.deniedWrite) :
    ∃ fs2, RdkitService.compress_pdf lib fs inp out false none = .ok fs2 ∧
      fs2.lookup out = some d := by
  obtain ⟨fs2, h1, h2, _⟩ := ext_compress_pdf_run lib fs inp out false none d hcl hm hw
  refine ⟨fs2, h1, ?_⟩
  rw [h2]
  show some (RdkitService.tryDedup lib d) = some d
  simp [RdkitService.tryDedup, hded]

/-- Claim C5: the extended compressor CLI exits with code 2 when the
argument vector has fewer than 2 positional arguments (i.e. fewer than 3
entries including the program name), and on a valid invocation
`<valid.pdf> <out.pdf> 50` it exits 0, writes a file at the output path,
and has created the destination's parent directories (every intermediate
included) before serializing. -/
theorem ext_main_cli (lib : ExtLib) (fs : FS) (argv : List String)
    (p i o : String) (d : Doc) :
    (argv.length < 3 → RdkitService.main lib fs argv = .ok (2, fs,
      ["Usage: python pdf_compress.py <input.pdf> <output.pdf> [image_quality]"]))
    ∧ (lib.clone i = .ok d → fs.mkdirAllowed (parentComponents o) →
        pathComponents o ∉ fs.deniedWrite →
        ∃ fs2, RdkitService.main lib fs [p, i, o, "50"] = .ok (0, fs2, []) ∧
          (∃ doc, fs2.lookup o = some doc) ∧
          ∀ c ∈ initsNE (parentComponents o), c ∈ fs2.dirs) := by
  constructor
  · intro hlen
    rw [RdkitService.main, if_pos hlen]
  · intro hcl hm hw
    obtain ⟨fs2, h1, h2, h3⟩ := ext_compress_pdf_run lib fs i o true (some 50) d hcl hm hw
    refine ⟨fs2, ?_, ⟨_, h2⟩, h3⟩
    rw [RdkitService.main, if_neg (by simp)]
    rw [if_pos (by simp)]
    have h50 : (pythonInt (List.getD [p, i, o, "50"] 3 "")).map some =
        .ok (some 50) := rfl
    rw [h50]
    show (match RdkitService.compress_pdf lib fs
        (List.getD [p, i, o, "50"] 1 "") (List.getD [p, i, o, "50"] 2 "")
        true (some 50) with
      | .error e => (.error e : Except Err (Nat × FS × List String))
      | .ok fs2 => .ok (0, fs2, [])) = .ok (0, fs2, [])
    have hidx1 : List.getD [p, i, o, "50"] 1 "" = i := rfl
    have hidx2 : List.getD [p, i, o, "50"] 2 "" = o := rfl
    rw [hidx1, hidx2, h1]

/-- Claim C9 (implicit): when the third positional argument is not a
valid integer literal, the extended compressor CLI propagates the
uncaught `ValueError` raised by `int(sys.argv[3])` before the compression
pipeline runs: the result is that very error for EVERY library oracle and
filesystem — so no exit code (neither 0 nor 2) is returned, no usage
message is printed, and no output file is written. -/
theorem ext_main_bad_quality (lib : ExtLib) (fs : FS) (p i o q : String)
    (e : Err) (hq : pythonInt q = .error e) :
    RdkitService.main lib fs [p, i, o, q] = .error e := by
  rw [RdkitService.main, if_neg (by simp)]
  rw [if_pos (by simp)]
  have hidx : List.getD [p, i, o, q] 3 "" = q := rfl
  rw [hidx, hq]
  rfl

/-- Claim C6: the basic compressor CLI, given an argument vector of a
single entry (an argument-count mismatch, as when run with no positional
arguments), exits with code 1 and prints the usage message to the error
stream; given an argument vector of exactly 3 entries (program name plus
the 2 positional arguments of its usage) and a readable input, it exits
0. -/
theorem basic_main_cli (lib : BasicLib) (fs : FS) (a p i o : String)
    (pages : List Page) :
    (Scripts.main lib fs [a] =
      .ok (1, fs, ["Usage: compress_pdf.py <input.pdf> <output.pdf>"]))
    ∧ (lib.readDoc i = .ok pages →
        fs.dirExists (parentComponents o) →
        pathComponents o ∉ fs.deniedWrite →
        ∃ fs2, Scripts.main lib fs [p, i, o] = .ok (0, fs2, [])) := by
  constructor
  · rw [Scripts.main, if_pos (by simp)]
  · intro hr hd hw
    obtain ⟨fs2, hrun⟩ := basic_compress_pdf_run lib fs i o pages hr hd hw
    refine ⟨fs2, ?_⟩
    rw [Scripts.main, if_neg (by simp)]
    have hidx1 : List.getD [p, i, o] 1 "" = i := rfl
    have hidx2 : List.getD [p, i, o] 2 "" = o := rfl
    rw [hidx1, hidx2, hrun]

/-- Claim C10 (implicit): the basic pipeline never creates missing
destination parent directories: if the output path's parent directory
does not exist, the open of the destination raises and the operation
fails fatally with no output produced; and whenever the pipeline
succeeds, the set of directories is unchanged. -/
theorem basic_no_mkdir (lib : BasicLib) (fs : FS) (inp out : String) :
    (∀ pages, lib.readDoc inp = .ok pages →
      ¬ fs.dirExists (parentComponents out) →
      Scripts.compress_pdf lib fs inp out =
        .error (.ioError "No such file or directory"))
    ∧ (∀ fs2, Scripts.compress_pdf lib fs inp out = .ok fs2 →
        fs2.dirs = fs.dirs) := by
  constructor
  · intro pages hr hd
    simp only [Scripts.compress_pdf, hr]
    rw [writeFile_noParent fs out _ hd]
  · intro fs2 hrun
    cases hr : lib.readDoc inp with
    | error e =>
      rw [Scripts.compress_pdf, hr] at hrun
      exact absurd hrun (by simp)
    | ok pages =>
      simp only [Scripts.compress_pdf, hr] at hrun
      exact writeFile_dirs fs fs2 out _ hrun

theorem isPre_trans_append : ∀ (xs ys zs : List Char),
    isPre xs ys = true → isPre xs (ys ++ zs) = true
  | [], _, _, _ => rfl
  | _ :: _, [], _, h => by simp [isPre] at h
  | x :: xs, y :: ys, zs, h => by
    simp only [isPre, Bool.and_eq_true, decide_eq_true_eq] at h
    simp only [List.cons_append, isPre, Bool.and_eq_true, decide_eq_true_eq]
    exact ⟨h.1, isPre_trans_append xs ys zs h.2⟩

theorem lstrip_xmlHeader_append (s : String) :
    lstrip (Render.xmlHeader ++ s) = Render.xmlHeader ++ s := by
  have hd : (Render.xmlHeader ++ s).data
      = '<' :: (Render.xmlHeader.data.tail ++ s.data) := rfl
  unfold lstrip
  rw [hd, List.dropWhile_cons_of_neg (by decide)]
  exact congrArg String.mk hd.symm

theorem isPre_xml_lstrip_header (s : String) :
    isPre "<?xml".data (lstrip (Render.xmlHeader ++ s)).data = true := by
  rw [lstrip_xmlHeader_append]
  have hd : (Render.xmlHeader ++ s).data = Render.xmlHeader.data ++ s.data := rfl
  rw [hd]
  exact isPre_trans_append _ _ _ (by decide)

/-- Claim C7: the CLI renderer prints, on a valid SMILES, an SVG document
to standard output that starts (after stripping leading whitespace) with
an XML declaration — prepending one exactly when the library output does
not already start with one — and exits 0 at the default 400x300 size; on
an invalid SMILES or a library failure it prints `ERROR: <message>` to
the error stream and exits 1; with no SMILES argument it exits 2. -/
theorem render_main_cli (lib : ChemLib) (pr s : String) (m : Nat)
    (svg : String) (e : Err) :
    (Render.main lib [pr] =
      .ok (2, [], ["Usage: python render.py <SMILES> [WIDTH] [HEIGHT]"]))
    ∧ (lib.molFromSmiles s = some m → lib.render m 400 300 = .ok svg →
        ∃ outStr, Render.main lib [pr, s] = .ok (0, [outStr], []) ∧
          isPre "<?xml".data (lstrip outStr).data = true ∧
          (isPre "<?xml".data (lstrip svg).data = true → outStr = svg) ∧
          (isPre "<?xml".data (lstrip svg).data = false →
            outStr = Render.xmlHeader ++ svg))
    ∧ (lib.molFromSmiles s = none →
        Render.main lib [pr, s] = .ok (1, [], ["ERROR: Invalid SMILES"]))
    ∧ (lib.molFromSmiles s = some m → lib.render m 400 300 = .error e →
        Render.main lib [pr, s] = .ok (1, [], ["ERROR: " ++ e.msg])) := by
  have hrm : Render.main lib [pr, s] =
      (match Render.smiles_to_svg lib s 400 300 with
       | .ok svg0 =>
         .ok (0, [if ¬ isPre "<?xml".data (lstrip svg0).data
                  then Render.xmlHeader ++ svg0 else svg0], [])
       | .error e2 => .ok (1, [], ["ERROR: " ++ e2.msg])) := by
    rw [Render.main, if_neg (by simp)]
    rfl
  refine ⟨?_, ?_, ?_, ?_⟩
  · rw [Render.main, if_pos (by simp)]
  · intro hmol hsvg
    rw [hrm]
    simp only [Render.smiles_to_svg, hmol, hsvg]
    cases hb : isPre "<?xml".data (lstrip svg).data with
    | true =>
      refine ⟨svg, ?_, hb, fun _ => rfl, ?_⟩
      · rw [if_neg (by simp [hb])]
      · intro hf
        exact absurd hf (by simp)
    | false =>
      refine ⟨Render.xmlHeader ++ svg, ?_, isPre_xml_lstrip_header svg, ?_,
        fun _ => rfl⟩
      · rw [if_pos (by simp [hb])]
      · intro ht
        exact absurd ht (by simp)
  · intro hmol
    rw [hrm]
    simp only [Render.smiles_to_svg, hmol]
    rfl
  · intro hmol hsvg
    rw [hrm]
    simp only [Render.smiles_to_svg, hmol, hsvg]

/-- Claim C8: the `GET /svg` handler returns HTTP 200 with the SVG body
and media type `image/svg+xml` drawn at 400x300 when the SMILES parses
and rendering succeeds; on an unparseable structure or any rendering
failure it returns HTTP 400 with a JSON error body carrying the failure
message; its status is always 200 or 400, never 500. -/
theorem svc_svg_endpoint (lib : ChemLib) (s : String) (m : Nat)
    (body : String) (e : Err) :
    (lib.molFromSmiles s = some m → lib.render m 400 300 = .ok body →
      RdkitService.svg lib s = .resp 200 "image/svg+xml" body)
    ∧ (lib.molFromSmiles s = none →
      RdkitService.svg lib s = .errJson 400 "Invalid SMILES")
    ∧ (lib.molFromSmiles s = some m → lib.render m 400 300 = .error e →
      RdkitService.svg lib s = .errJson 400 e.msg)
    ∧ ((RdkitService.svg lib s).status = 200 ∨
       (RdkitService.svg lib s).status = 400) := by
  refine ⟨?_, ?_, ?_, ?_⟩
  · intro h1 h2
    simp [RdkitService.svg, RdkitService.svgTryBody, h1, h2]
  · intro h1
    simp [RdkitService.svg, RdkitService.svgTryBody, h1, Err.msg]
  · intro h1 h2
    simp [RdkitService.svg, RdkitService.svgTryBody, h1, h2]
  · cases hb : RdkitService.svgTryBody lib s with
    | ok s2 =>
      left
      simp [RdkitService.svg, hb, HttpResp.status]
    | error e2 =>
      right
      simp [RdkitService.svg, hb, HttpResp.status]

/-! ## Concrete instances used by the witnesses -/

def wPage1 : Page :=
  { content := [1, 2], streamLen := 8, images := [{ data := 5, quality := none }] }

def wPage2 : Page := { content := [3], streamLen := 6, images := [] }

def wDoc : Doc := { pages := [wPage1, wPage2], meta := 7 }

def fs0 : FS := { dirs := [], files := [], deniedDirs := [], deniedWrite := [] }

def fsDenyDir : FS :=
  { dirs := [], files := [], deniedDirs := [["d"]], deniedWrite := [] }

def fsDenyWrite : FS :=
  { dirs := [], files := [], deniedDirs := [], deniedWrite := [["out.pdf"]] }

def basicReadFail : BasicLib :=
  { readDoc := fun _ => .error (.ioError "parse failed"),
    compressAll := fun ps => .ok ps }

def basicNoCompress : BasicLib :=
  { readDoc := fun _ => .ok [wPage1, wPage2],
    compressAll := fun _ => .error (.libError "unsupported") }

def basicOk : BasicLib :=
  { readDoc := fun _ => .ok [wPage1, wPage2],
    compressAll := fun ps => .ok (ps.map (fun p => { p with streamLen := p.streamLen / 2 })) }

/-- The document `basicOk` writes: streams halved, content untouched. -/
def wDocC : Doc :=
  { pages := [{ content := [1, 2], streamLen := 4, images := [{ data := 5, quality := none }] },
              { content := [3], streamLen := 3, images := [] }], meta := 0 }

/-- The filesystem after `basicOk` writes `wDocC` at `out.pdf`. -/
def wFS2 : FS :=
  { dirs := [], files := [(["out.pdf"], wDocC)], deniedDirs := [], deniedWrite := [] }

def extCloneFail : ExtLib :=
  { clone := fun _ => .error (.ioError "clone failed"),
    compressPage := fun _ p => .ok p,
    enumImages := fun _ p => .ok p.images,
    replaceImg := fun _ _ im _ => .ok im,
    dedup := fun dd => .ok dd }

/-- Fault injection: page 0's compression attempt fails, every other
page's succeeds; image enumeration and de-duplication raise. -/
def extFaulty : ExtLib :=
  { clone := fun _ => .ok wDoc,
    compressPage := fun k p =>
      if k = 0 then .error (.libError "page fail")
      else .ok { p with streamLen := p.streamLen / 2 },
    enumImages := fun _ _ => .error (.libError "images unavailable"),
    replaceImg := fun _ _ _ _ => .error (.libError "replace fail"),
    dedup := fun _ => .error (.libError "dedup unsupported") }

def chemOkNoHeader : ChemLib :=
  { molFromSmiles := fun s => if s = "CCO" then some 1 else none,
    render := fun _ _ _ => .ok "<svg>mol</svg>" }

def chemRenderFail : ChemLib :=
  { molFromSmiles := fun s => if s = "CCO" then some 1 else none,
    render := fun _ _ _ => .error (.libError "draw failed") }

/-! ## Witnesses -/

theorem basic_error_policy_witness :
    Scripts.compress_pdf basicReadFail fs0 "in.pdf" "out.pdf"
        = .error (.ioError "parse failed")
    ∧ Scripts.compress_pdf basicNoCompress fs0 "in.pdf" "d/out.pdf"
        = .error (.ioError "No such file or directory")
    ∧ ∃ fs2, Scripts.compress_pdf basicNoCompress fs0 "in.pdf" "out.pdf" = .ok fs2 ∧
        fs2.lookup "out.pdf" = some { pages := [wPage1, wPage2], meta := 0 } :=
  ⟨(basic_error_policy basicReadFail fs0 "in.pdf" "out.pdf").1
      (.ioError "parse failed") rfl,
   (basic_error_policy basicNoCompress fs0 "in.pdf" "d/out.pdf").2.1
      [wPage1, wPage2] rfl (by decide),
   (basic_error_policy basicNoCompress fs0 "in.pdf" "out.pdf").2.2
      [wPage1, wPage2] (.libError "unsupported") rfl rfl (by decide) (by decide)⟩

theorem basic_page_preservation_witness :
    ∃ doc, wFS2.lookup "out.pdf" = some doc ∧
      doc.pages.length = ([wPage1, wPage2] : List Page).length ∧
      ∀ (j : Nat) (dp : Page), j < ([wPage1, wPage2] : List Page).length →
        (doc.pages.getD j dp).content
          = (([wPage1, wPage2] : List Page).getD j dp).content :=
  basic_page_preservation basicOk fs0 "in.pdf" "out.pdf" [wPage1, wPage2] rfl
    (by
      intro ps2 h
      injection h with h2
      subst h2
      refine ⟨rfl, ?_⟩
      intro j dp hj
      have hj2 : j < 2 := by simpa using hj
      interval_cases j <;> rfl)
    wFS2 rfl

theorem ext_error_policy_witness :
    RdkitService.compress_pdf extCloneFail fs0 "in.pdf" "out.pdf" true (some 50)
        = .error (.ioError "clone failed")
    ∧ RdkitService.compress_pdf extFaulty fsDenyDir "in.pdf" "d/out.pdf" true (some 50)
        = .error (.ioError "mkdir: permission denied")
    ∧ RdkitService.compress_pdf extFaulty fsDenyWrite "in.pdf" "out.pdf" true (some 50)
        = .error (.ioError "write: permission denied")
    ∧ (∃ fs2, RdkitService.compress_pdf extFaulty fs0 "in.pdf" "out.pdf" true (some 50)
        = .ok fs2)
    ∧ (∃ fs2 doc,
        RdkitService.compress_pdf extFaulty fs0 "in.pdf" "out.pdf" true none = .ok fs2 ∧
        fs2.lookup "out.pdf" = some doc ∧
        doc.pages.length = wDoc.pages.length ∧
        ∀ (j : Nat) (dp : Page), j < wDoc.pages.length →
          doc.pages.getD j dp
            = RdkitService.tryCompress extFaulty j (wDoc.pages.getD j dp)) :=
  ⟨(ext_error_policy extCloneFail fs0 "in.pdf" "out.pdf" true (some 50)).1 _ rfl,
   (ext_error_policy extFaulty fsDenyDir "in.pdf" "d/out.pdf" true (some 50)).2.1
      wDoc rfl (by decide),
   (ext_error_policy extFaulty fsDenyWrite "in.pdf" "out.pdf" true (some 50)).2.2.1
      wDoc rfl (by decide) (by decide),
   (ext_error_policy extFaulty fs0 "in.pdf" "out.pdf" true (some 50)).2.2.2.1
      wDoc rfl (by decide) (by decide),
   (ext_error_policy extFaulty fs0 "in.pdf" "out.pdf" true (some 50)).2.2.2.2
      wDoc rfl (by decide) (by decide)
      (by
        intro dd d2 h
        exact absurd h (by simp [extFaulty]))⟩

theorem ext_noop_passthrough_witness :
    ∃ fs2, RdkitService.compress_pdf extFaulty fs0 "in.pdf" "out.pdf" false none
        = .ok fs2 ∧ fs2.lookup "out.pdf" = some wDoc :=
  ext_noop_passthrough extFaulty fs0 "in.pdf" "out.pdf" wDoc
    (.libError "dedup unsupported") rfl rfl (by decide) (by decide)

theorem ext_main_cli_witness :
    RdkitService.main extFaulty fs0 ["pdf_compress.py"] = .ok (2, fs0,
      ["Usage: python pdf_compress.py <input.pdf> <output.pdf> [image_quality]"])
    ∧ ∃ fs2, RdkitService.main extFaulty fs0
        ["pdf_compress.py", "in.pdf", "d/e/out.pdf", "50"] = .ok (0, fs2, []) ∧
        (∃ doc, fs2.lookup "d/e/out.pdf" = some doc) ∧
        ∀ c ∈ initsNE (parentComponents "d/e/out.pdf"), c ∈ fs2.dirs :=
  ⟨(ext_main_cli extFaulty fs0 ["pdf_compress.py"] "x" "y" "z" wDoc).1 (by simp),
   (ext_main_cli extFaulty fs0 [] "pdf_compress.py" "in.pdf" "d/e/out.pdf" wDoc).2
      rfl (by decide) (by decide)⟩

theorem ext_main_bad_quality_witness :
    RdkitService.main extFaulty fs0 ["pdf_compress.py", "in.pdf", "out.pdf", "abc"]
      = .error (.valueError "invalid literal for int() with base 10: abc") :=
  ext_main_bad_quality extFaulty fs0 "pdf_compress.py" "in.pdf" "out.pdf" "abc" _ rfl

theorem basic_main_cli_witness :
    Scripts.main basicOk fs0 ["compress_pdf.py"]
      = .ok (1, fs0, ["Usage: compress_pdf.py <input.pdf> <output.pdf>"])
    ∧ ∃ fs2, Scripts.main basicOk fs0 ["compress_pdf.py", "in.pdf", "out.pdf"]
      = .ok (0, fs2, []) :=
  ⟨(basic_main_cli basicOk fs0 "compress_pdf.py" "x" "y" "z" []).1,
   (basic_main_cli basicOk fs0 "w" "compress_pdf.py" "in.pdf" "out.pdf"
      [wPage1, wPage2]).2 rfl (by decide) (by decide)⟩

theorem basic_no_mkdir_witness :
    Scripts.compress_pdf basicOk fs0 "in.pdf" "d/out.pdf"
      = .error (.ioError "No such file or directory")
    ∧ wFS2.dirs = fs0.dirs :=
  ⟨(basic_no_mkdir basicOk fs0 "in.pdf" "d/out.pdf").1 [wPage1, wPage2] rfl (by decide),
   (basic_no_mkdir basicOk fs0 "in.pdf" "out.pdf").2 wFS2 rfl⟩

theorem render_main_cli_witness :
    Render.main chemOkNoHeader ["render.py"]
      = .ok (2, [], ["Usage: python render.py <SMILES> [WIDTH] [HEIGHT]"])
    ∧ (∃ outStr, Render.main chemOkNoHeader ["render.py", "CCO"]
        = .ok (0, [outStr], []) ∧
        isPre "<?xml".data (lstrip outStr).data = true ∧
        (isPre "<?xml".data (lstrip "<svg>mol</svg>").data = true →
          outStr = "<svg>mol</svg>") ∧
        (isPre "<?xml".data (lstrip "<svg>mol</svg>").data = false →
          outStr = Render.xmlHeader ++ "<svg>mol</svg>"))
    ∧ Render.main chemOkNoHeader ["render.py", "not-a-smiles"]
        = .ok (1, [], ["ERROR: Invalid SMILES"])
    ∧ Render.main chemRenderFail ["render.py", "CCO"]
        = .ok (1, [], ["ERROR: " ++ (Err.libError "draw failed").msg]) :=
  ⟨(render_main_cli chemOkNoHeader "render.py" "CCO" 1 "x" .attrError).1,
   (render_main_cli chemOkNoHeader "render.py" "CCO" 1 "<svg>mol</svg>" .attrError).2.1
      rfl rfl,
   (render_main_cli chemOkNoHeader "render.py" "not-a-smiles" 1 "x" .attrError).2.2.1
      rfl,
   (render_main_cli chemRenderFail "render.py" "CCO" 1 "x" (.libError "draw failed")).2.2.2
      rfl rfl⟩

theorem svc_svg_endpoint_witness :
    RdkitService.svg chemOkNoHeader "CCO" = .resp 200 "image/svg+xml" "<svg>mol</svg>"
    ∧ RdkitService.svg chemOkNoHeader "zzz" = .errJson 400 "Invalid SMILES"
    ∧ RdkitService.svg chemRenderFail "CCO" = .errJson 400 (Err.libError "draw failed").msg
    ∧ ((RdkitService.svg chemOkNoHeader "CCO").status = 200 ∨
       (RdkitService.svg chemOkNoHeader "CCO").status = 400) :=
  ⟨(svc_svg_endpoint chemOkNoHeader "CCO" 1 "<svg>mol</svg>" .attrError).1 rfl rfl,
   (svc_svg_endpoint chemOkNoHeader "zzz" 1 "x" .attrError).2.1 rfl,
   (svc_svg_endpoint chemRenderFail "CCO" 1 "x" (.libError "draw failed")).2.2.1 rfl rfl,
   (svc_svg_endpoint chemOkNoHeader "CCO" 1 "x" .attrError).2.2.2⟩
